import Mathlib

/-!
Verification development for the Nikon R8/R10 EA-1 IR remote-control /
intervalometer firmware (ATtiny85).  The repository contains near-duplicate
firmware revisions:

* revision A — the first document of `Nikon_R_EA-1-RC-Intervalometer.ino`
  (no learn mode; Apple-remote keys hardwired);
* revision C — `Nikon_R_EA-1-RC-Intervalometer/Nikon_R_EA-1-RC-Intervalometer.ino`
  (learn mode, OR-shaped garbage guard).

The IR edge ISR (`ISR(INT0_vect)`) and the interval timer ISR
(`ISR(TIMER1_COMPA_vect)`) are identical across revisions and are embedded
once.  `ReceivedCode` of revision A is embedded as `dispatchA`;
`ReceivedCode` of revision C is embedded as `receivedCodeC`.

Side effects (relay writes, LED blinks, EEPROM writes, blocking delays) are
modelled as explicit event lists; pin levels that the firmware reads back
(`digitalRead(lightmeterPin)`) and the mode variables are carried in explicit
state records.  Machine integers: `byte`/`unsigned int` values are modelled as
`Nat` (all reachable values fit), the signed `int` arithmetic on interval
step and postscaler is modelled on `Int`.  AVR `int` is 16-bit, and the one
site where the program can overflow it — the postscaler doubling
`postscaler * 2`, whose product 32768 at the reachable value 16384 does not
fit — is modelled explicitly through the two's-complement wrap `wrap16`;
every other intermediate (step ± 10, divider + 1, postscaler / 2) stays well
inside the 16-bit range, and all division operands are nonnegative, where
Lean's `Int` division agrees with C's.
-/

/-- Camera-side operations invoked by `ReceivedCode` and the timer ISR:
the four relay sequences, the LED blink routines and the timer-interrupt
toggle (`TIMSK` bit flip). -/
inductive Act where
  | startRunWithMetering
  | stopRun
  | meterOnce
  | singleFrame
  | blinkLED
  | blinkLEDtwice
  | toggleTimer
deriving DecidableEq, Repr

/-- A primitive step of a relay sequence: a `digitalWrite` to a pin, or a
blocking `_delay_ms`. -/
inductive Event where
  | setPin (pin : Nat) (level : Bool)
  | wait (ms : Nat)
deriving DecidableEq, Repr

/- Pin assignment (identical in all revisions). -/

def lightmeterPin : Nat := 3
def startPin : Nat := 4
def loadPin : Nat := 1
def holdPin : Nat := 0
def ledPin : Nat := 1

/- Key codes of revision A (`#define` block). -/

def RC_CODE : Nat := 0x87EE
def UP_KEY : Nat := 0x05
def DOWN_KEY : Nat := 0x06
def LEFT_KEY : Nat := 0x04
def RIGHT_KEY : Nat := 0x03
def MENU_KEY : Nat := 0x01
def ALU_CENTER_KEY : Nat := 0x2E
def ALU_PLAY_KEY : Nat := 0x2F
def WHITE_PLAY_KEY : Nat := 0x02

def LM_MODE_1ST_SINGLESHOT : Nat := 1
def LM_MODE_SUB_SINGLESHOT : Nat := 2

/-- Body of `startRunWithMetering()` as the sequence of pin writes and
blocking delays, in program order. -/
def startRunWithMeteringTrace : List Event :=
  [Event.setPin lightmeterPin true,
   Event.setPin holdPin true,
   Event.setPin loadPin true,
   Event.wait 250,
   Event.setPin loadPin false,
   Event.wait 70,
   Event.setPin startPin true]

/-- Body of `stopRun()` as the sequence of pin writes and blocking delays,
in program order (the trailing LED pulse shares `ledPin = 1` with the load
relay).  `stopRun` additionally resets `lmMode` to
`LM_MODE_1ST_SINGLESHOT`; that assignment is carried in the state models. -/
def stopRunTrace : List Event :=
  [Event.setPin startPin false,
   Event.wait 70,
   Event.setPin holdPin false,
   Event.setPin lightmeterPin false,
   Event.setPin ledPin true,
   Event.wait 250,
   Event.setPin ledPin false]

/-- Arduino `constrain(amt, low, high)` macro on signed integers. -/
def constrain (x lo hi : Int) : Int :=
  if x < lo then lo else if hi < x then hi else x

/-- Two's-complement wraparound to a 16-bit signed AVR `int`: the value
avr-gcc produces for `int` arithmetic that overflows, e.g.
`16384 * 2 = -32768`.  Identity on [-32768, 32767]. -/
def wrap16 (x : Int) : Int := (x + 32768) % 65536 - 32768

/-- Global mutable state of revision A that `ReceivedCode` and
`ISR(TIMER1_COMPA_vect)` read or write.  `lightmeter` is the output level of
`lightmeterPin` (written by the relay sequences, read back through
`digitalRead`); `timerEnabled` is the `OCIE1A` bit of `TIMSK`;
`ocr1c`/`ocr1a` are the hardware compare registers. -/
structure StateA where
  oldIntervalStep : Int
  newIntervalStep : Int
  postscaler : Int
  divider : Int
  lmMode : Nat
  blinkFlag : Bool
  aluRemote : Bool
  lightmeter : Bool
  timerEnabled : Bool
  ocr1c : Int
  ocr1a : Int
deriving DecidableEq, Repr

/-- State after `setup()` of revision A: the initializers of the globals,
`OCR1C = OCR1A = oldIntervalStep = 31`, timer interrupt not yet enabled. -/
def initialStateA : StateA :=
  { oldIntervalStep := 31
    newIntervalStep := 31
    postscaler := 2
    divider := 0
    lmMode := LM_MODE_1ST_SINGLESHOT
    blinkFlag := true
    aluRemote := false
    lightmeter := false
    timerEnabled := false
    ocr1c := 31
    ocr1a := 31 }

/-- The two statements closing revision A's `ReceivedCode`
(`if (blinkFlag) blinkLED(); blinkFlag = true;`), executed on every call
after the branch-specific work `acts`. -/
def finishA (s : StateA) (acts : List Act) : StateA × List Act :=
  ({ s with blinkFlag := true },
   acts ++ if s.blinkFlag then [Act.blinkLED] else [])

/-- The aluminium-remote disambiguation latch of revision A
(`if (((key == ALU_CENTER_KEY) && !Repeat) || ((key == ALU_PLAY_KEY) && !Repeat)) aluRemote = true;`),
applied to the state before the key branches run. -/
def aluLatchA (key : Nat) (Repeat : Bool) (s : StateA) : StateA :=
  if ((key == ALU_CENTER_KEY) && !Repeat) || ((key == ALU_PLAY_KEY) && !Repeat) then
    { s with aluRemote := true }
  else s

/-- Net effect of `startRunWithMetering()` on the read-back state: the
lightmeter relay is left high (hold/load/start are never read back). -/
def startRunEffectA (s : StateA) : StateA := { s with lightmeter := true }

/-- Net effect of `stopRun()` on the read-back state: the lightmeter relay
is left low and `lmMode = LM_MODE_1ST_SINGLESHOT`. -/
def stopRunEffectA (s : StateA) : StateA :=
  { s with lightmeter := false, lmMode := LM_MODE_1ST_SINGLESHOT }

/-- Net effect of `meterOnce()`: the lightmeter relay ends low and
`lmMode = LM_MODE_SUB_SINGLESHOT`. -/
def meterOnceEffectA (s : StateA) : StateA :=
  { s with lightmeter := false, lmMode := LM_MODE_SUB_SINGLESHOT }

/-- The MENU branch: toggle the `OCIE1A` bit of `TIMSK`. -/
def toggleTimerEffectA (s : StateA) : StateA :=
  { s with timerEnabled := !s.timerEnabled }

/-- The DOWN (Slower) branch:
`oldIntervalStep = newIntervalStep; newIntervalStep = constrain(oldIntervalStep + 10, 1, 255);`. -/
def slowerEffectA (s : StateA) : StateA :=
  { s with oldIntervalStep := s.newIntervalStep,
           newIntervalStep := constrain (s.newIntervalStep + 10) 1 255 }

/-- The UP (Faster) branch: step decreases by 10, clamped with floor 11 when
`postscaler <= 4` (avoiding intervals below 200ms), floor 1 otherwise. -/
def fasterEffectA (s : StateA) : StateA :=
  if s.postscaler ≤ 4 then
    { s with oldIntervalStep := s.newIntervalStep,
             newIntervalStep := constrain (s.newIntervalStep - 10) 11 255 }
  else
    { s with oldIntervalStep := s.newIntervalStep,
             newIntervalStep := constrain (s.newIntervalStep - 10) 1 255 }

/-- The RIGHT (HalfSpeed) branch: `postscaler = constrain(postscaler * 2, 1, 32768);`.
The product `postscaler * 2` is computed in the 16-bit AVR `int`, so it
wraps (`wrap16`) before the clamp: at the reachable postscaler 16384 it
yields -32768 and the clamp lands at 1, never at the unrepresentable
32768. -/
def halfSpeedEffectA (s : StateA) : StateA :=
  { s with postscaler := constrain (wrap16 (s.postscaler * 2)) 1 32768 }

/-- The LEFT (DoubleSpeed) branch:
`postscaler = constrain(postscaler / 2, 1, 32768);` followed by
`if ((newIntervalStep < 11) && (postscaler <= 4)) newIntervalStep = 11;`. -/
def doubleSpeedEffectA (s : StateA) : StateA :=
  let p2 := constrain (s.postscaler / 2) 1 32768
  { s with postscaler := p2,
           newIntervalStep :=
             if s.newIntervalStep < 11 ∧ p2 ≤ 4 then 11 else s.newIntervalStep }

/-- The final else branch (garbled or unmapped key): `blinkFlag = false;`. -/
def garbledEffectA (s : StateA) : StateA := { s with blinkFlag := false }

/-- `ReceivedCode(Repeat)` of revision A.  `data` is the global
`receivedData` at call time.  Relay sequences are emitted as `Act`s and
their net effect on the read-back state (`lightmeterPin` level, `lmMode`)
is applied through the `...EffectA` helpers above;  `singleFrame` leaves
every pin it touches low, so it has no state effect. -/
def dispatchA (data : Nat) (Repeat : Bool) (s : StateA) : StateA × List Act :=
  if (data &&& 0xFFFF) != RC_CODE then
    -- Transmitter is not an Apple Remote: bare run/stop on any key but 0xFF.
    let pre : List Act := if !Repeat then [Act.blinkLED] else []
    let key := (data >>> 16) &&& 0xFF
    if (key != 0xFF) && !Repeat && !s.lightmeter then
      finishA (startRunEffectA s) (pre ++ [Act.startRunWithMetering])
    else if (key != 0xFF) && !Repeat && s.lightmeter then
      finishA (stopRunEffectA s) (pre ++ [Act.stopRun])
    else finishA s pre
  else
    -- Comfort mode with the Apple Remote.
    let key := (data >>> 17) &&& 0x7F
    let s1 := aluLatchA key Repeat s
    if (key == ALU_PLAY_KEY) && !Repeat && !s1.lightmeter then
      finishA (startRunEffectA s1) [Act.startRunWithMetering]
    else if (key == ALU_PLAY_KEY) && !Repeat && s1.lightmeter then
      finishA (stopRunEffectA s1) [Act.stopRun]
    else if (key == ALU_CENTER_KEY) && !Repeat then
      if s1.lmMode == LM_MODE_1ST_SINGLESHOT then
        finishA (meterOnceEffectA s1) [Act.meterOnce, Act.singleFrame]
      else finishA s1 [Act.singleFrame]
    else if (key == MENU_KEY) && !Repeat then
      finishA (toggleTimerEffectA s1) [Act.toggleTimer]
    else if (key == DOWN_KEY) && !Repeat then
      finishA (slowerEffectA s1) []
    else if (key == UP_KEY) && !Repeat then
      finishA (fasterEffectA s1) []
    else if (key == RIGHT_KEY) && !Repeat then
      finishA (halfSpeedEffectA s1) []
    else if (key == LEFT_KEY) && !Repeat then
      finishA (doubleSpeedEffectA s1) []
    else if (key == WHITE_PLAY_KEY) && !Repeat && !s1.aluRemote && !s1.lightmeter then
      finishA (startRunEffectA s1) [Act.startRunWithMetering]
    else if (key == WHITE_PLAY_KEY) && !Repeat && !s1.aluRemote && s1.lightmeter then
      finishA (stopRunEffectA s1) [Act.stopRun]
    else finishA (garbledEffectA s1) []

/-- `ISR(TIMER1_COMPA_vect)`: commit a staged interval-step change to
`OCR1C`/`OCR1A`, call `singleFrame()` when `divider == 0`, then
`divider++; divider %= postscaler;`. -/
def timer1Step (s : StateA) : StateA × List Act :=
  let s1 := if s.newIntervalStep != s.oldIntervalStep then
              { s with ocr1c := s.newIntervalStep, ocr1a := s.newIntervalStep }
            else s
  let acts : List Act := if s1.divider == 0 then [Act.singleFrame] else []
  ({ s1 with divider := (s1.divider + 1) % s1.postscaler }, acts)

/-- Iterated timer-compare interrupts (no IR activity in between). -/
def timerIter (s : StateA) : Nat → StateA
  | 0 => s
  | n + 1 => (timer1Step (timerIter s n)).1

/-- Fold of `dispatchA` over a sequence of incoming frames
(`data`, `Repeat`) in arrival order. -/
def dispatchRunA (s : StateA) (frames : List (Nat × Bool)) : StateA :=
  frames.foldl (fun st f => (dispatchA f.1 f.2 st).1) s

/-- Decoder state of `ISR(INT0_vect)`: the bit counter `irBits`
(32 = awaiting the NEC AGC leader, 0..31 = receiving data bits) and the
32-bit shift buffer `receivedData`. -/
structure IrState where
  irBits : Nat
  receivedData : Nat
deriving DecidableEq, Repr

/-- Decoder state at power-up: `setup()` sets `irBits = 32`; the global
`receivedData` is zero-initialised. -/
def irInitState : IrState := { irBits := 32, receivedData := 0 }

/-- One invocation of `ISR(INT0_vect)` on a falling IR edge.  `timeStamp` is
the captured `TCNT0` tick count since the previous edge, `overFlow` the
`TOV0` flag.  The result pairs the new decoder state with the dispatch
performed, if any: `some (data, repeat)` models a `ReceivedCode` call on
buffer `data` with that repeat flag.  The trailing counter/flag clears
touch only the hardware timer, not the decoder state. -/
def isrStep (s : IrState) (timeStamp : Nat) (overFlow : Bool) :
    IrState × Option (Nat × Bool) :=
  if s.irBits == 32 then
    -- Check for AGC leader
    if 194 ≤ timeStamp ∧ timeStamp ≤ 228 ∧ overFlow = false then
      ({ irBits := 0, receivedData := 0 }, none)
    else if 159 ≤ timeStamp ∧ timeStamp ≤ 193 ∧ overFlow = false then
      (s, some (s.receivedData, true))
    else (s, none)
  else
    -- Here comes the data in
    if 44 < timeStamp ∨ overFlow = true then
      ({ s with irBits := 32 }, none)
    else
      let data1 := if 26 < timeStamp then s.receivedData ||| (1 <<< s.irBits)
                   else s.receivedData
      let ev := if s.irBits == 31 then some (data1, false) else none
      ({ irBits := s.irBits + 1, receivedData := data1 }, ev)

/-- Revision C's top-level garbage guard on the command byte of the frame,
written exactly as in the source:
`((receivedData>>16 & 0xFF) != 0xFF) || ((receivedData>>16 & 0xFF) != 0x00)`. -/
def garbageGuardC (data : Nat) : Bool :=
  (((data >>> 16) &&& 0xFF) != 0xFF) || (((data >>> 16) &&& 0xFF) != 0x00)

/-- The `RC` struct of revision C, the record written to EEPROM: a 16-bit
address (`int RcCode`) and seven `byte` key codes. -/
structure RCrec where
  RcCode : Nat
  PlayKey : Nat
  CenterKey : Nat
  MenuKey : Nat
  UpKey : Nat
  DownKey : Nat
  LeftKey : Nat
  RightKey : Nat
deriving DecidableEq, Repr

/-- Global mutable state of revision C that `ReceivedCode` reads or writes:
the (re)learnable remote profile variables, the learn-mode flags, the
normal-operation mode state, and the history of `EEPROM.put` records
(appended to on each persist, so that persistence points are observable). -/
structure StateC where
  irRcCode : Nat
  irPlayKey : Nat
  irCenterKey : Nat
  irMenuKey : Nat
  irUpKey : Nat
  irDownKey : Nat
  irLeftKey : Nat
  irRightKey : Nat
  justBooted : Bool
  learnMode : Bool
  oldIntervalStep : Int
  newIntervalStep : Int
  postscaler : Int
  lmMode : Nat
  blinkFlag : Bool
  aluRemote : Bool
  lightmeter : Bool
  timerEnabled : Bool
  eepromWrites : List RCrec
deriving DecidableEq, Repr

/-- Revision C's `irWhitePlayKey` variable: initialised to 0x02 and never
reassigned (it is not part of the learnable profile). -/
def irWhitePlayKey : Nat := 0x02

/-- The slot variables of the learnable profile of revision C, listed in the
order of `ReceivedCode`'s fill chain: Play, SingleFrame (Center),
IntervalToggle (Menu), Faster (Up), Slower (Down), DoubleSpeed (Left),
HalfSpeed (Right). -/
def slotsC (s : StateC) : List Nat :=
  [s.irPlayKey, s.irCenterKey, s.irMenuKey, s.irUpKey, s.irDownKey,
   s.irLeftKey, s.irRightKey]

/-- Index of the first still-unfilled slot (value `0xFFFF`) in the fill
order of revision C's learn chain, if any. -/
def firstUnfilledIdx (s : StateC) : Option Nat :=
  if s.irPlayKey == 0xFFFF then some 0
  else if s.irCenterKey == 0xFFFF then some 1
  else if s.irMenuKey == 0xFFFF then some 2
  else if s.irUpKey == 0xFFFF then some 3
  else if s.irDownKey == 0xFFFF then some 4
  else if s.irLeftKey == 0xFFFF then some 5
  else if s.irRightKey == 0xFFFF then some 6
  else none

/-- The `RC` struct literal built and written to EEPROM when the seventh
slot is filled with `key`, with the `byte`/`int` field truncations of the
struct types. -/
def profileC (s : StateC) (key : Nat) : RCrec :=
  { RcCode := s.irRcCode &&& 0xFFFF
    PlayKey := s.irPlayKey &&& 0xFF
    CenterKey := s.irCenterKey &&& 0xFF
    MenuKey := s.irMenuKey &&& 0xFF
    UpKey := s.irUpKey &&& 0xFF
    DownKey := s.irDownKey &&& 0xFF
    LeftKey := s.irLeftKey &&& 0xFF
    RightKey := key &&& 0xFF }

/-- The aluminium-remote disambiguation latch of revision C: `aluRemote`
becomes true when the key matches the Center or Play slot, the frame is not
a repeat, and the stored address is the Apple one (the source compares
`irRcCode == 0x87EE`). -/
def aluLatchC (key : Nat) (Repeat : Bool) (s : StateC) : StateC :=
  if ((key == s.irCenterKey) && !Repeat && (s.irRcCode == 0x87EE)) ||
     ((key == s.irPlayKey) && !Repeat && (s.irRcCode == 0x87EE)) then
    { s with aluRemote := true }
  else s

/-- The two statements closing revision C's normal-operation branch
(`if (blinkFlag) blinkLED(); blinkFlag = true;`). -/
def finishC (s : StateC) (acts : List Act) : StateC × List Act :=
  ({ s with blinkFlag := true },
   acts ++ if s.blinkFlag then [Act.blinkLED] else [])

/-- The boot-window branch of revision C's `ReceivedCode`
(`justBooted && !learnMode`): capture the sender's address, reset all seven
key slots to the 0xFFFF sentinel, flash twice and enter learn mode. -/
def bootCaptureC (data : Nat) (s : StateC) : StateC × List Act :=
  ({ s with irRcCode := data &&& 0xFFFF,
            irPlayKey := 0xFFFF, irCenterKey := 0xFFFF, irMenuKey := 0xFFFF,
            irUpKey := 0xFFFF, irDownKey := 0xFFFF, irLeftKey := 0xFFFF,
            irRightKey := 0xFFFF,
            learnMode := true },
   [Act.blinkLEDtwice])

/-- The learn-mode branch of revision C's `ReceivedCode`: on an address
match (no repeat check in this revision) write the command byte into the
first slot still holding the 0xFFFF sentinel; when the seventh slot
(`irRightKey`) fills, write the whole `RC` record to EEPROM, flash wildly
and leave learn mode.  A frame from a different address does nothing. -/
def learnStepC (data : Nat) (s : StateC) : StateC × List Act :=
  if (data &&& 0xFFFF) == s.irRcCode then
    let key := (data >>> 16) &&& 0xFF
    if s.irPlayKey == 0xFFFF then
      ({ s with irPlayKey := key }, [Act.blinkLEDtwice])
    else if s.irCenterKey == 0xFFFF then
      ({ s with irCenterKey := key }, [Act.blinkLEDtwice])
    else if s.irMenuKey == 0xFFFF then
      ({ s with irMenuKey := key }, [Act.blinkLEDtwice])
    else if s.irUpKey == 0xFFFF then
      ({ s with irUpKey := key }, [Act.blinkLEDtwice])
    else if s.irDownKey == 0xFFFF then
      ({ s with irDownKey := key }, [Act.blinkLEDtwice])
    else if s.irLeftKey == 0xFFFF then
      ({ s with irLeftKey := key }, [Act.blinkLEDtwice])
    else if s.irRightKey == 0xFFFF then
      ({ s with irRightKey := key,
                eepromWrites := s.eepromWrites ++ [profileC s key],
                learnMode := false },
       [Act.blinkLEDtwice, Act.blinkLEDtwice, Act.blinkLEDtwice,
        Act.blinkLEDtwice, Act.blinkLEDtwice])
    else (s, [Act.blinkLEDtwice])
  else (s, [])

/-- The normal-operation branch of revision C's `ReceivedCode`
(`!justBooted && !learnMode`), including its closing
`if (blinkFlag) blinkLED(); blinkFlag = true;`. -/
def normalOpsC (data : Nat) (Repeat : Bool) (s : StateC) : StateC × List Act :=
  if (data &&& 0xFFFF) != s.irRcCode then
        -- Unknown IR transmitter: bare run/stop on any key but 0xFF.
        let pre : List Act := if !Repeat then [Act.blinkLED] else []
        let key := (data >>> 16) &&& 0xFF
        if (key != 0xFF) && !Repeat && !s.lightmeter then
          finishC { s with lightmeter := true } (pre ++ [Act.startRunWithMetering])
        else if (key != 0xFF) && !Repeat && s.lightmeter then
          finishC { s with lightmeter := false, lmMode := LM_MODE_1ST_SINGLESHOT }
            (pre ++ [Act.stopRun])
        else finishC s pre
      else
        -- Comfort mode with a trained Remote or the Apple Remote.
        let key := if (data &&& 0xFFFF) == 0x87EE then (data >>> 17) &&& 0x7F
                   else (data >>> 16) &&& 0xFF
        let s1 := aluLatchC key Repeat s
        if (key == s1.irPlayKey) && !Repeat && !s1.lightmeter then
          finishC { s1 with lightmeter := true } [Act.startRunWithMetering]
        else if (key == s1.irPlayKey) && !Repeat && s1.lightmeter then
          finishC { s1 with lightmeter := false, lmMode := LM_MODE_1ST_SINGLESHOT }
            [Act.stopRun]
        else if (key == s1.irCenterKey) && !Repeat then
          if s1.lmMode == LM_MODE_1ST_SINGLESHOT then
            finishC { s1 with lightmeter := false, lmMode := LM_MODE_SUB_SINGLESHOT }
              [Act.meterOnce, Act.singleFrame]
          else finishC s1 [Act.singleFrame]
        else if (key == s1.irMenuKey) && !Repeat then
          finishC { s1 with timerEnabled := !s1.timerEnabled } [Act.toggleTimer]
        else if (key == s1.irDownKey) && !Repeat then
          finishC { s1 with oldIntervalStep := s1.newIntervalStep,
                            newIntervalStep := constrain (s1.newIntervalStep + 10) 1 255 } []
        else if (key == s1.irUpKey) && !Repeat then
          if s1.postscaler ≤ 4 then
            finishC { s1 with oldIntervalStep := s1.newIntervalStep,
                              newIntervalStep := constrain (s1.newIntervalStep - 10) 11 255 } []
          else
            finishC { s1 with oldIntervalStep := s1.newIntervalStep,
                              newIntervalStep := constrain (s1.newIntervalStep - 10) 1 255 } []
        else if (key == s1.irRightKey) && !Repeat then
          -- postscaler * 2 is 16-bit AVR int arithmetic: it wraps at 16384.
          finishC { s1 with postscaler := constrain (wrap16 (s1.postscaler * 2)) 1 32768 } []
        else if (key == s1.irLeftKey) && !Repeat then
          let p2 := constrain (s1.postscaler / 2) 1 32768
          finishC { s1 with postscaler := p2,
                            newIntervalStep :=
                              if s1.newIntervalStep < 11 ∧ p2 ≤ 4 then 11
                              else s1.newIntervalStep } []
        else if (key == irWhitePlayKey) && !Repeat && !s1.aluRemote && !s1.lightmeter then
          finishC { s1 with lightmeter := true } [Act.startRunWithMetering]
        else if (key == irWhitePlayKey) && !Repeat && !s1.aluRemote && s1.lightmeter then
          finishC { s1 with lightmeter := false, lmMode := LM_MODE_1ST_SINGLESHOT }
            [Act.stopRun]
        else finishC { s1 with blinkFlag := false } []

/-- `ReceivedCode(Repeat)` of revision C: the always-true garbage guard,
then the boot-window address capture, the learn-mode slot collector, or
normal operations, by the `justBooted`/`learnMode` flags. -/
def receivedCodeC (data : Nat) (Repeat : Bool) (s : StateC) : StateC × List Act :=
  if garbageGuardC data then
    if s.justBooted && !s.learnMode then bootCaptureC data s
    else if s.learnMode then learnStepC data s
    else if !s.justBooted && !s.learnMode then normalOpsC data Repeat s
    else (s, [])
  else (s, [])

/-- Frame from an Apple remote carrying key `k`: address `0x87EE` in the low
16 bits, the 7-bit key in bits 17..23 (the parity-style bit 16 left clear),
so that `(data >> 17) & 0x7F` recovers `k`. -/
def appleFrame (k : Nat) : Nat := (k <<< 17) ||| RC_CODE

/-- Helper: the OR-shaped garbage guard of revision C is true on every
frame, since no command byte equals both 0xFF and 0x00. -/
theorem garbageGuardC_always_true (data : Nat) : garbageGuardC data = true := by
  unfold garbageGuardC
  by_cases h : ((data >>> 16) &&& 0xFF) = 0xFF
  · simp [h]
  · simp [h]

/-- C2: while the decoder awaits a leader (`irBits = 32`), an edge with
elapsed ticks in [194,228] and no overflow clears the buffer and enters
`ReceivingBits` with bit index 0; elapsed in [159,193] with no overflow
dispatches the buffered frame with `repeat = true` and leaves the state
unchanged; every other elapsed count, or a set overflow flag, dispatches
nothing and leaves state and buffer unchanged. -/
theorem isr_awaitingLeader_cases (s : IrState) (t : Nat) (ov : Bool)
    (h : s.irBits = 32) :
    (194 ≤ t ∧ t ≤ 228 ∧ ov = false →
        isrStep s t ov = ({ irBits := 0, receivedData := 0 }, none)) ∧
    (159 ≤ t ∧ t ≤ 193 ∧ ov = false →
        isrStep s t ov = (s, some (s.receivedData, true))) ∧
    (t < 159 ∨ 228 < t ∨ ov = true →
        isrStep s t ov = (s, none)) := by
  refine ⟨?_, ?_, ?_⟩
  · rintro ⟨h1, h2, h3⟩
    subst h3
    simp [isrStep, h, h1, h2]
  · rintro ⟨h1, h2, h3⟩
    subst h3
    have hno : ¬ 194 ≤ t := by omega
    simp [isrStep, h, h1, h2, hno]
  · rintro (hc | hc | hc)
    · have hA : ¬ 194 ≤ t := by omega
      have hB : ¬ 159 ≤ t := by omega
      simp [isrStep, h, hA, hB]
    · have hA : ¬ t ≤ 228 := by omega
      have hB : ¬ t ≤ 193 := by omega
      simp [isrStep, h, hA, hB]
    · subst hc
      simp [isrStep, h]

/-- C2 witness at concrete inputs for each of the three cases. -/
theorem isr_awaitingLeader_cases_witness :
    isrStep { irBits := 32, receivedData := 7 } 200 false
      = ({ irBits := 0, receivedData := 0 }, none) ∧
    isrStep { irBits := 32, receivedData := 7 } 170 false
      = ({ irBits := 32, receivedData := 7 }, some (7, true)) ∧
    isrStep { irBits := 32, receivedData := 7 } 100 true
      = ({ irBits := 32, receivedData := 7 }, none) := by
  refine ⟨?_, ?_, ?_⟩
  · exact (isr_awaitingLeader_cases _ 200 false rfl).1 (by norm_num)
  · exact (isr_awaitingLeader_cases _ 170 false rfl).2.1 (by norm_num)
  · exact (isr_awaitingLeader_cases _ 100 true rfl).2.2 (Or.inr (Or.inr rfl))


/-- C3: while the decoder is receiving bits (`irBits` in 0..31), an elapsed
count above 44 ticks or a set overflow flag abandons the frame (state back
to awaiting-leader, no dispatch, buffer kept); otherwise bit `irBits` of the
buffer becomes 1 exactly when the elapsed count exceeds 26 ticks (other bits
untouched), the completed frame is dispatched with `repeat = false` exactly
when `irBits = 31`, and `irBits` is incremented, reaching the
awaiting-leader value 32 after bit 31. -/
theorem isr_receivingBits_cases (s : IrState) (t : Nat) (ov : Bool)
    (h : s.irBits < 32) (hbit : s.receivedData.testBit s.irBits = false) :
    (44 < t ∨ ov = true →
        isrStep s t ov = ({ s with irBits := 32 }, none)) ∧
    (t ≤ 44 → ov = false →
        (isrStep s t ov).1.irBits = s.irBits + 1 ∧
        (isrStep s t ov).1.receivedData.testBit s.irBits = decide (26 < t) ∧
        (∀ j, j ≠ s.irBits →
            (isrStep s t ov).1.receivedData.testBit j = s.receivedData.testBit j) ∧
        (isrStep s t ov).2 =
          (if s.irBits = 31 then some ((isrStep s t ov).1.receivedData, false)
           else none)) := by
  have h32 : ¬ s.irBits = 32 := by omega
  refine ⟨?_, ?_⟩
  · rintro (hc | hc)
    · simp [isrStep, h32, hc]
    · subst hc
      simp [isrStep, h32]
  · intro ht hov
    subst hov
    have hno : ¬ 44 < t := by omega
    have honebit : ∀ j, (Nat.testBit (1 <<< s.irBits) j) = decide (j = s.irBits) := by
      intro j
      rw [Nat.shiftLeft_eq, one_mul]
      by_cases hj : j = s.irBits
      · subst hj
        simp [Nat.testBit_two_pow_self]
      · simp [Nat.testBit_two_pow_of_ne (fun hh => hj hh.symm), hj]
    refine ⟨?_, ?_, ?_, ?_⟩
    · simp only [isrStep, h32, beq_iff_eq, if_false, hno, Bool.false_eq_true, or_self,
        if_false]
    · by_cases h26 : 26 < t
      · simp [isrStep, h32, hno, h26, Nat.testBit_or, honebit, hbit]
      · simp [isrStep, h32, hno, h26, hbit]
    · intro j hj
      by_cases h26 : 26 < t
      · simp [isrStep, h32, hno, h26, Nat.testBit_or, honebit, hj]
      · simp [isrStep, h32, hno, h26]
    · by_cases h31 : s.irBits = 31
      · simp [isrStep, h32, hno, h31]
      · simp [isrStep, h32, hno, h31]

/-- C3 witness: a concrete receiving-bits state exercising the abandon case
and the bit-setting and dispatch-at-bit-31 cases. -/
theorem isr_receivingBits_cases_witness :
    isrStep { irBits := 5, receivedData := 3 } 60 false
      = ({ irBits := 32, receivedData := 3 }, none) ∧
    (isrStep { irBits := 5, receivedData := 3 } 30 false).1.receivedData.testBit 5
      = true ∧
    (isrStep { irBits := 31, receivedData := 3 } 30 false).2
      = some (2147483651, false) := by
  refine ⟨?_, ?_, ?_⟩
  · exact (isr_receivingBits_cases { irBits := 5, receivedData := 3 } 60 false
      (by norm_num) (by decide)).1 (Or.inl (by norm_num))
  · have hmain := (isr_receivingBits_cases { irBits := 5, receivedData := 3 } 30 false
      (by norm_num) (by decide)).2 (by norm_num) rfl
    rw [hmain.2.1]
    decide
  · have hmain := (isr_receivingBits_cases { irBits := 31, receivedData := 3 } 30 false
      (by norm_num) (by decide)).2 (by norm_num) rfl
    rw [hmain.2.2.2]
    decide

/-- C10: a repeat-leader gap (elapsed in [159,193], no overflow) while
awaiting a leader dispatches the *current* buffer contents with
`repeat = true`, whatever they are — in particular the zero buffer right
after boot — and abandoning a frame in the data phase does not clear the
buffer, so a later repeat gap redispatches the partial bits. -/
theorem isr_repeatGap_uses_currentBuffer (s : IrState) (t : Nat) (ov : Bool) :
    (s.irBits = 32 → 159 ≤ t → t ≤ 193 →
        isrStep s t false = (s, some (s.receivedData, true))) ∧
    (159 ≤ t → t ≤ 193 →
        isrStep irInitState t false = (irInitState, some (0, true))) ∧
    (s.irBits < 32 → 44 < t ∨ ov = true →
        (isrStep s t ov).1.receivedData = s.receivedData ∧
        (isrStep s t ov).1.irBits = 32 ∧
        (isrStep s t ov).2 = none) := by
  refine ⟨?_, ?_, ?_⟩
  · intro h h1 h2
    have hno : ¬ 194 ≤ t := by omega
    simp [isrStep, h, h1, h2, hno]
  · intro h1 h2
    have hno : ¬ 194 ≤ t := by omega
    simp [isrStep, irInitState, h1, h2, hno]
  · intro h hc
    have h32 : ¬ s.irBits = 32 := by omega
    rcases hc with hc | hc
    · simp [isrStep, h32, hc]
    · subst hc
      simp [isrStep, h32]

/-- C10 witness: boot-state buffer 0 is redispatched on a repeat gap; a
frame abandoned after five partial bits keeps those bits in the buffer. -/
theorem isr_repeatGap_uses_currentBuffer_witness :
    isrStep irInitState 170 false = (irInitState, some (0, true)) ∧
    (isrStep { irBits := 5, receivedData := 19 } 80 false).1.receivedData = 19 := by
  refine ⟨?_, ?_⟩
  · exact (isr_repeatGap_uses_currentBuffer irInitState 170 false).2.1
      (by norm_num) (by norm_num)
  · exact ((isr_repeatGap_uses_currentBuffer { irBits := 5, receivedData := 19 }
      80 false).2.2 (by norm_num) (Or.inl (by norm_num))).1

/-- C4: revision C's top-level garbage guard, equivalent to
`(key != 0xFF) OR (key != 0x00)` on the frame's command byte, is true for
every 32-bit frame, so it rejects nothing. -/
theorem garbageGuardC_accepts_all (data : Nat) (h : data < 2 ^ 32) :
    garbageGuardC data = true :=
  garbageGuardC_always_true data

/-- C4 witness: even the sentinel command byte 0xFF passes the guard. -/
theorem garbageGuardC_accepts_all_witness :
    (0xFF87EE : Nat) < 2 ^ 32 ∧ garbageGuardC 0xFF87EE = true :=
  ⟨by norm_num, garbageGuardC_accepts_all 0xFF87EE (by norm_num)⟩

/-- Helper: the timer handler emits `singleFrame` exactly when the divider
is zero on entry. -/
theorem timer1Step_fires_iff (s : StateA) :
    Act.singleFrame ∈ (timer1Step s).2 ↔ s.divider = 0 := by
  unfold timer1Step
  by_cases hne : (s.newIntervalStep != s.oldIntervalStep) = true
  · rw [if_pos hne]
    by_cases hd : s.divider = 0
    · simp [hd]
    · simp [hd]
  · rw [if_neg hne]
    by_cases hd : s.divider = 0
    · simp [hd]
    · simp [hd]

/-- Helper: the timer handler never changes the postscaler. -/
theorem timer1Step_postscaler (s : StateA) :
    (timer1Step s).1.postscaler = s.postscaler := by
  unfold timer1Step
  by_cases hne : (s.newIntervalStep != s.oldIntervalStep) = true
  · rw [if_pos hne]
  · rw [if_neg hne]

/-- Helper: the timer handler performs `divider++; divider %= postscaler;`. -/
theorem timer1Step_divider (s : StateA) :
    (timer1Step s).1.divider = (s.divider + 1) % s.postscaler := by
  unfold timer1Step
  by_cases hne : (s.newIntervalStep != s.oldIntervalStep) = true
  · rw [if_pos hne]
  · rw [if_neg hne]

/-- Helper: with the divider starting at 0, `k` timer interrupts leave the
divider at `k mod postscaler` and the postscaler untouched. -/
theorem timerIter_divider (s : StateA) (hd : s.divider = 0) :
    ∀ k : Nat, (timerIter s k).divider = (k : Int) % s.postscaler ∧
               (timerIter s k).postscaler = s.postscaler := by
  intro k
  induction k with
  | zero => simpa [timerIter] using hd
  | succ n ih =>
      refine ⟨?_, ?_⟩
      · show (timer1Step (timerIter s n)).1.divider = _
        rw [timer1Step_divider, ih.1, ih.2, Int.emod_add_emod]
        push_cast
        ring_nf
      · show (timer1Step (timerIter s n)).1.postscaler = _
        rw [timer1Step_postscaler, ih.2]

/-- Helper: the revision A aluminium latch only ever turns `aluRemote` on. -/
theorem aluLatchA_eq (key : Nat) (Repeat : Bool) (s : StateA) :
    aluLatchA key Repeat s =
      { s with aluRemote :=
          s.aluRemote ||
            (((key == ALU_CENTER_KEY) && !Repeat) || ((key == ALU_PLAY_KEY) && !Repeat)) } := by
  unfold aluLatchA
  split
  next h => simp [h]
  next h =>
    rw [Bool.not_eq_true] at h
    rw [h]
    simp

/-- Helper: every `ReceivedCode` call of revision A returns `finishA s0 acts`
where `s0` is one of thirteen branch effects applied to the entry state
(after the aluminium latch in the Apple branch). -/
theorem dispatchA_shape (data : Nat) (Repeat : Bool) (s : StateA) :
    ∃ s0 acts, dispatchA data Repeat s = finishA s0 acts ∧
      (s0 = s ∨ s0 = startRunEffectA s ∨ s0 = stopRunEffectA s ∨
       s0 = aluLatchA ((data >>> 17) &&& 0x7F) Repeat s ∨
       s0 = startRunEffectA (aluLatchA ((data >>> 17) &&& 0x7F) Repeat s) ∨
       s0 = stopRunEffectA (aluLatchA ((data >>> 17) &&& 0x7F) Repeat s) ∨
       s0 = meterOnceEffectA (aluLatchA ((data >>> 17) &&& 0x7F) Repeat s) ∨
       s0 = toggleTimerEffectA (aluLatchA ((data >>> 17) &&& 0x7F) Repeat s) ∨
       s0 = slowerEffectA (aluLatchA ((data >>> 17) &&& 0x7F) Repeat s) ∨
       s0 = fasterEffectA (aluLatchA ((data >>> 17) &&& 0x7F) Repeat s) ∨
       s0 = halfSpeedEffectA (aluLatchA ((data >>> 17) &&& 0x7F) Repeat s) ∨
       s0 = doubleSpeedEffectA (aluLatchA ((data >>> 17) &&& 0x7F) Repeat s) ∨
       s0 = garbledEffectA (aluLatchA ((data >>> 17) &&& 0x7F) Repeat s)) := by
  unfold dispatchA
  by_cases h1 : ((data &&& 0xFFFF) != RC_CODE) = true
  · rw [if_pos h1]
    by_cases h2 : (((((data >>> 16) &&& 0xFF) != 0xFF) && !Repeat && !s.lightmeter) = true)
    · rw [if_pos h2]
      exact ⟨_, _, rfl, Or.inr (Or.inl rfl)⟩
    · rw [if_neg h2]
      by_cases h3 : (((((data >>> 16) &&& 0xFF) != 0xFF) && !Repeat && s.lightmeter) = true)
      · rw [if_pos h3]
        exact ⟨_, _, rfl, Or.inr (Or.inr (Or.inl rfl))⟩
      · rw [if_neg h3]
        exact ⟨_, _, rfl, Or.inl rfl⟩
  · rw [if_neg h1]
    by_cases h2 : (((((data >>> 17) &&& 0x7F) == ALU_PLAY_KEY) && !Repeat &&
        !(aluLatchA ((data >>> 17) &&& 0x7F) Repeat s).lightmeter) = true)
    · rw [if_pos h2]
      exact ⟨_, _, rfl, by tauto⟩
    · rw [if_neg h2]
      by_cases h3 : (((((data >>> 17) &&& 0x7F) == ALU_PLAY_KEY) && !Repeat &&
          (aluLatchA ((data >>> 17) &&& 0x7F) Repeat s).lightmeter) = true)
      · rw [if_pos h3]
        exact ⟨_, _, rfl, by tauto⟩
      · rw [if_neg h3]
        by_cases h4 : (((((data >>> 17) &&& 0x7F) == ALU_CENTER_KEY) && !Repeat) = true)
        · rw [if_pos h4]
          by_cases h4b : (((aluLatchA ((data >>> 17) &&& 0x7F) Repeat s).lmMode ==
              LM_MODE_1ST_SINGLESHOT) = true)
          · rw [if_pos h4b]
            exact ⟨_, _, rfl, by tauto⟩
          · rw [if_neg h4b]
            exact ⟨_, _, rfl, by tauto⟩
        · rw [if_neg h4]
          by_cases h5 : (((((data >>> 17) &&& 0x7F) == MENU_KEY) && !Repeat) = true)
          · rw [if_pos h5]
            exact ⟨_, _, rfl, by tauto⟩
          · rw [if_neg h5]
            by_cases h6 : (((((data >>> 17) &&& 0x7F) == DOWN_KEY) && !Repeat) = true)
            · rw [if_pos h6]
              exact ⟨_, _, rfl, by tauto⟩
            · rw [if_neg h6]
              by_cases h7 : (((((data >>> 17) &&& 0x7F) == UP_KEY) && !Repeat) = true)
              · rw [if_pos h7]
                exact ⟨_, _, rfl, by tauto⟩
              · rw [if_neg h7]
                by_cases h8 : (((((data >>> 17) &&& 0x7F) == RIGHT_KEY) && !Repeat) = true)
                · rw [if_pos h8]
                  exact ⟨_, _, rfl, by tauto⟩
                · rw [if_neg h8]
                  by_cases h9 : (((((data >>> 17) &&& 0x7F) == LEFT_KEY) && !Repeat) = true)
                  · rw [if_pos h9]
                    exact ⟨_, _, rfl, by tauto⟩
                  · rw [if_neg h9]
                    by_cases h10 : (((((data >>> 17) &&& 0x7F) == WHITE_PLAY_KEY) && !Repeat &&
                        !(aluLatchA ((data >>> 17) &&& 0x7F) Repeat s).aluRemote &&
                        !(aluLatchA ((data >>> 17) &&& 0x7F) Repeat s).lightmeter) = true)
                    · rw [if_pos h10]
                      exact ⟨_, _, rfl, by tauto⟩
                    · rw [if_neg h10]
                      by_cases h11 : (((((data >>> 17) &&& 0x7F) == WHITE_PLAY_KEY) && !Repeat &&
                          !(aluLatchA ((data >>> 17) &&& 0x7F) Repeat s).aluRemote &&
                          (aluLatchA ((data >>> 17) &&& 0x7F) Repeat s).lightmeter) = true)
                      · rw [if_pos h11]
                        exact ⟨_, _, rfl, by tauto⟩
                      · rw [if_neg h11]
                        exact ⟨_, _, rfl, by tauto⟩

/-- Helper: revision A's `ReceivedCode` never touches the hardware compare
registers or the interval divider. -/
theorem dispatchA_hw_frozen (data : Nat) (Repeat : Bool) (s : StateA) :
    (dispatchA data Repeat s).1.ocr1c = s.ocr1c ∧
    (dispatchA data Repeat s).1.ocr1a = s.ocr1a ∧
    (dispatchA data Repeat s).1.divider = s.divider := by
  obtain ⟨s0, acts, heq, hcase⟩ := dispatchA_shape data Repeat s
  rw [heq]
  rcases hcase with h|h|h|h|h|h|h|h|h|h|h|h|h <;> subst h <;>
    simp [finishA, startRunEffectA, stopRunEffectA, meterOnceEffectA,
      toggleTimerEffectA, slowerEffectA, fasterEffectA, halfSpeedEffectA,
      doubleSpeedEffectA, garbledEffectA, aluLatchA_eq] <;>
    split <;> simp

/-- C6: in every execution of the interval-timer compare handler, a staged
step change (`newIntervalStep` differing from `oldIntervalStep`) is
committed to the compare registers inside the handler — and nowhere else,
in particular never by `ReceivedCode` — `singleFrame` is called exactly
when the divider is 0, and the divider is then incremented modulo the
postscaler, so that starting from divider 0 with a constant postscaler the
`k`-th interrupt fires `singleFrame` exactly when `k` is a multiple of the
postscaler. -/
theorem timer1_interval_commit_and_postscale (s : StateA) :
    ((timer1Step s).1.ocr1c =
        (if s.newIntervalStep = s.oldIntervalStep then s.ocr1c else s.newIntervalStep)) ∧
    ((timer1Step s).1.ocr1a =
        (if s.newIntervalStep = s.oldIntervalStep then s.ocr1a else s.newIntervalStep)) ∧
    (Act.singleFrame ∈ (timer1Step s).2 ↔ s.divider = 0) ∧
    ((timer1Step s).1.divider = (s.divider + 1) % s.postscaler) ∧
    (∀ data Repeat, (dispatchA data Repeat s).1.ocr1c = s.ocr1c ∧
        (dispatchA data Repeat s).1.ocr1a = s.ocr1a) ∧
    (s.divider = 0 → ∀ k : Nat,
        (Act.singleFrame ∈ (timer1Step (timerIter s k)).2 ↔
          (k : Int) % s.postscaler = 0)) := by
  refine ⟨?_, ?_, timer1Step_fires_iff s, timer1Step_divider s, ?_, ?_⟩
  · by_cases hne : s.newIntervalStep = s.oldIntervalStep
    · simp [timer1Step, hne]
    · simp [timer1Step, hne]
  · by_cases hne : s.newIntervalStep = s.oldIntervalStep
    · simp [timer1Step, hne]
    · simp [timer1Step, hne]
  · intro data Repeat
    exact ⟨(dispatchA_hw_frozen data Repeat s).1, (dispatchA_hw_frozen data Repeat s).2.1⟩
  · intro hd k
    rw [timer1Step_fires_iff, (timerIter_divider s hd k).1]

/-- C6 witness: from the boot state (divider 0, postscaler 2), interrupt 4
fires `singleFrame` and interrupt 1 must not. -/
theorem timer1_interval_commit_and_postscale_witness :
    Act.singleFrame ∈ (timer1Step (timerIter initialStateA 4)).2 ∧
    Act.singleFrame ∉ (timer1Step (timerIter initialStateA 1)).2 := by
  constructor
  · exact ((timer1_interval_commit_and_postscale initialStateA).2.2.2.2.2 rfl 4).mpr
      (by decide)
  · intro hmem
    have h1 := ((timer1_interval_commit_and_postscale initialStateA).2.2.2.2.2 rfl 1).mp hmem
    revert h1
    decide

set_option maxRecDepth 100000 in
/-- C7: the claimed floor invariant (postscaler ≤ 4 → staged step ≥ 11)
holds at boot but is NOT preserved by every dispatcher command: from the
boot state, thirteen HalfSpeed presses reach postscaler 16384 (step still
31), three Faster presses while postscaler > 4 drop the staged step via the
floor-1 clamp to 1, and one more HalfSpeed computes 16384 * 2 in the 16-bit
AVR `int`, wrapping to -32768, so the constrain lands the postscaler at
1 ≤ 4 while the step stays 1 < 11 — a reachable state with an effective
period of about 16ms, violating the 200ms floor the source itself documents
(the "intervals <200ms, which we do want to avoid" comment and the
DoubleSpeed fix-up). -/
theorem min_period_floor_violated_reachably :
    ((dispatchRunA initialStateA
        (List.replicate 13 (appleFrame RIGHT_KEY, false) ++
         List.replicate 3 (appleFrame UP_KEY, false) ++
         [(appleFrame RIGHT_KEY, false)])).postscaler ≤ 4) ∧
    ((dispatchRunA initialStateA
        (List.replicate 13 (appleFrame RIGHT_KEY, false) ++
         List.replicate 3 (appleFrame UP_KEY, false) ++
         [(appleFrame RIGHT_KEY, false)])).newIntervalStep < 11) ∧
    (initialStateA.postscaler ≤ 4 → 11 ≤ initialStateA.newIntervalStep) := by
  refine ⟨by decide, by decide, by norm_num [initialStateA]⟩

set_option maxRecDepth 100000 in
/-- C8: the claimed clamp algebra fails at the top of the range: postscaler
16384 is reachable (thirteen HalfSpeed presses from the boot value 2), and
one more HalfSpeed computes 16384 * 2 in the 16-bit AVR `int`, which wraps
to -32768; `constrain` then lands at 1, not at min(32768, 32768) = 32768,
a value the hardware `int` cannot even represent — contradicting the
source's own "up to 2^16 (39:04:20)" comment. -/
theorem postscaler_halfspeed_wraps_at_16384 :
    (dispatchRunA initialStateA
        (List.replicate 13 (appleFrame RIGHT_KEY, false))).postscaler = 16384 ∧
    (dispatchRunA initialStateA
        (List.replicate 14 (appleFrame RIGHT_KEY, false))).postscaler = 1 ∧
    ¬ ((dispatchRunA initialStateA
        (List.replicate 14 (appleFrame RIGHT_KEY, false))).postscaler
          = min 32768 ((16384 : Int) * 2)) := by
  refine ⟨by decide, by decide, by decide⟩

/-- C5: in revision A's normal operation, a non-repeat Play frame with the
lightmeter relay line low executes `startRunWithMetering`, whose step
sequence is exactly lightmeter ON, hold ON, load ON, wait 250ms, load OFF,
wait 70ms, start ON; with the line high it executes `stopRun`, whose first
four steps are start OFF, wait 70ms, hold OFF, lightmeter OFF and which
resets the lightmeter mode to first-single-shot; a repeat Play frame
executes neither sequence. -/
theorem play_toggle_spec (s : StateA) :
    (s.lightmeter = false →
        Act.startRunWithMetering ∈ (dispatchA (appleFrame ALU_PLAY_KEY) false s).2 ∧
        Act.stopRun ∉ (dispatchA (appleFrame ALU_PLAY_KEY) false s).2) ∧
    (s.lightmeter = true →
        Act.stopRun ∈ (dispatchA (appleFrame ALU_PLAY_KEY) false s).2 ∧
        Act.startRunWithMetering ∉ (dispatchA (appleFrame ALU_PLAY_KEY) false s).2 ∧
        (dispatchA (appleFrame ALU_PLAY_KEY) false s).1.lmMode = LM_MODE_1ST_SINGLESHOT) ∧
    startRunWithMeteringTrace =
      [Event.setPin lightmeterPin true, Event.setPin holdPin true,
       Event.setPin loadPin true, Event.wait 250, Event.setPin loadPin false,
       Event.wait 70, Event.setPin startPin true] ∧
    stopRunTrace.take 4 =
      [Event.setPin startPin false, Event.wait 70, Event.setPin holdPin false,
       Event.setPin lightmeterPin false] ∧
    (Act.startRunWithMetering ∉ (dispatchA (appleFrame ALU_PLAY_KEY) true s).2 ∧
     Act.stopRun ∉ (dispatchA (appleFrame ALU_PLAY_KEY) true s).2) := by
  have e1 : ((appleFrame 47) &&& 65535) = 34798 := by decide
  have e2 : ((appleFrame 47) >>> 17 &&& 127) = 47 := by decide
  refine ⟨?_, ?_, rfl, rfl, ?_⟩
  · intro hlm
    by_cases hb : s.blinkFlag = true <;>
      simp [dispatchA, e1, e2, RC_CODE, RIGHT_KEY, UP_KEY, DOWN_KEY, LEFT_KEY, MENU_KEY,
        ALU_CENTER_KEY, ALU_PLAY_KEY, WHITE_PLAY_KEY, aluLatchA, startRunEffectA,
        finishA, hlm, hb]
  · intro hlm
    by_cases hb : s.blinkFlag = true <;>
      simp [dispatchA, e1, e2, RC_CODE, RIGHT_KEY, UP_KEY, DOWN_KEY, LEFT_KEY, MENU_KEY,
        ALU_CENTER_KEY, ALU_PLAY_KEY, WHITE_PLAY_KEY, aluLatchA, stopRunEffectA,
        finishA, hlm, hb, LM_MODE_1ST_SINGLESHOT]
  · by_cases hb : s.blinkFlag = true <;>
      simp [dispatchA, e1, e2, RC_CODE, RIGHT_KEY, UP_KEY, DOWN_KEY, LEFT_KEY, MENU_KEY,
        ALU_CENTER_KEY, ALU_PLAY_KEY, WHITE_PLAY_KEY, aluLatchA, garbledEffectA,
        finishA, hb]

/-- C5 witness: from the boot state a non-repeat Play starts a run; with
the lightmeter line high it stops the run. -/
theorem play_toggle_spec_witness :
    Act.startRunWithMetering ∈ (dispatchA (appleFrame ALU_PLAY_KEY) false initialStateA).2 ∧
    Act.stopRun ∈
      (dispatchA (appleFrame ALU_PLAY_KEY) false
        { initialStateA with lightmeter := true }).2 := by
  constructor
  · exact ((play_toggle_spec initialStateA).1 rfl).1
  · exact ((play_toggle_spec { initialStateA with lightmeter := true }).2.1 rfl).1

/-- Helper: no `ReceivedCode` branch of revision A ever clears `aluRemote`. -/
theorem dispatchA_aluRemote_mono (data : Nat) (Repeat : Bool) (s : StateA)
    (h : s.aluRemote = true) : (dispatchA data Repeat s).1.aluRemote = true := by
  obtain ⟨s0, acts, heq, hcase⟩ := dispatchA_shape data Repeat s
  rw [heq]
  rcases hcase with hc|hc|hc|hc|hc|hc|hc|hc|hc|hc|hc|hc|hc <;> subst hc <;>
    simp [finishA, startRunEffectA, stopRunEffectA, meterOnceEffectA, toggleTimerEffectA,
      slowerEffectA, fasterEffectA, halfSpeedEffectA, doubleSpeedEffectA, garbledEffectA,
      aluLatchA_eq, h] <;>
    split_ifs <;> simp [h]

/-- Helper: `aluRemote` stays set across any sequence of received frames. -/
theorem dispatchRunA_aluRemote_mono (frames : List (Nat × Bool)) :
    ∀ s : StateA, s.aluRemote = true → (dispatchRunA s frames).aluRemote = true := by
  induction frames with
  | nil =>
      intro s h
      simpa [dispatchRunA] using h
  | cons f rest ih =>
      intro s h
      simp only [dispatchRunA, List.foldl_cons] at ih ⊢
      exact ih _ (dispatchA_aluRemote_mono f.1 f.2 s h)

/-- C9: dispatching a non-repeat Play or SingleFrame (Center) frame of the
aluminium Apple remote sets the `aluRemote` latch; once set, no sequence of
later frames ever clears it, and from any latched state a WhitePlay frame
(repeat or not) triggers neither `startRunWithMetering` nor `stopRun`. -/
theorem aluRemote_oneway_latch :
    (∀ s : StateA, (dispatchA (appleFrame ALU_PLAY_KEY) false s).1.aluRemote = true) ∧
    (∀ s : StateA, (dispatchA (appleFrame ALU_CENTER_KEY) false s).1.aluRemote = true) ∧
    (∀ (s : StateA) (frames : List (Nat × Bool)), s.aluRemote = true →
        (dispatchRunA s frames).aluRemote = true) ∧
    (∀ (s : StateA) (Repeat : Bool), s.aluRemote = true →
        Act.startRunWithMetering ∉ (dispatchA (appleFrame WHITE_PLAY_KEY) Repeat s).2 ∧
        Act.stopRun ∉ (dispatchA (appleFrame WHITE_PLAY_KEY) Repeat s).2) := by
  have eP1 : ((appleFrame 47) &&& 65535) = 34798 := by decide
  have eP2 : ((appleFrame 47) >>> 17 &&& 127) = 47 := by decide
  have eC1 : ((appleFrame 46) &&& 65535) = 34798 := by decide
  have eC2 : ((appleFrame 46) >>> 17 &&& 127) = 46 := by decide
  have eW1 : ((appleFrame 2) &&& 65535) = 34798 := by decide
  have eW2 : ((appleFrame 2) >>> 17 &&& 127) = 2 := by decide
  refine ⟨?_, ?_, fun s frames h => dispatchRunA_aluRemote_mono frames s h, ?_⟩
  · intro s
    by_cases hlm : s.lightmeter = true <;>
      simp [dispatchA, eP1, eP2, RC_CODE, RIGHT_KEY, UP_KEY, DOWN_KEY, LEFT_KEY, MENU_KEY,
        ALU_CENTER_KEY, ALU_PLAY_KEY, WHITE_PLAY_KEY, aluLatchA, startRunEffectA,
        stopRunEffectA, finishA, hlm]
  · intro s
    by_cases hm : s.lmMode = 1 <;>
      simp [dispatchA, eC1, eC2, RC_CODE, RIGHT_KEY, UP_KEY, DOWN_KEY, LEFT_KEY, MENU_KEY,
        ALU_CENTER_KEY, ALU_PLAY_KEY, WHITE_PLAY_KEY, aluLatchA, meterOnceEffectA,
        finishA, hm, LM_MODE_1ST_SINGLESHOT]
  · intro s Repeat h
    cases Repeat <;>
      by_cases hb : s.blinkFlag = true <;>
        simp [dispatchA, eW1, eW2, RC_CODE, RIGHT_KEY, UP_KEY, DOWN_KEY, LEFT_KEY, MENU_KEY,
          ALU_CENTER_KEY, ALU_PLAY_KEY, WHITE_PLAY_KEY, aluLatchA, garbledEffectA,
          finishA, h, hb]

/-- C9 witness: a non-repeat aluminium Play frame from boot latches
`aluRemote`; from a latched state a WhitePlay frame starts nothing. -/
theorem aluRemote_oneway_latch_witness :
    (dispatchA (appleFrame ALU_PLAY_KEY) false initialStateA).1.aluRemote = true ∧
    ({ initialStateA with aluRemote := true } : StateA).aluRemote = true ∧
    Act.startRunWithMetering ∉
      (dispatchA (appleFrame WHITE_PLAY_KEY) false
        { initialStateA with aluRemote := true }).2 := by
  refine ⟨aluRemote_oneway_latch.1 initialStateA, rfl, ?_⟩
  exact (aluRemote_oneway_latch.2.2.2 { initialStateA with aluRemote := true } false rfl).1

/-- C1: while a learn session is active (`learnMode`), a non-repeat frame
whose low 16 address bits equal the captured address writes its command
byte into the first still-unfilled slot, in the fixed chain order Play,
SingleFrame (Center), IntervalToggle (Menu), Faster (Up), Slower (Down),
DoubleSpeed (Left), HalfSpeed (Right); filling slot 6 (the seventh)
persists the completed profile to EEPROM and ends the session, no other
frame of the session writes the store, and a frame from a different
address changes nothing at all. -/
theorem learn_session_slot_fill (s : StateC) (data : Nat) (i : Nat)
    (hlearn : s.learnMode = true)
    (haddr : (data &&& 0xFFFF) = s.irRcCode)
    (hidx : firstUnfilledIdx s = some i) :
    (slotsC (receivedCodeC data false s).1 =
        (slotsC s).set i ((data >>> 16) &&& 0xFF)) ∧
    ((receivedCodeC data false s).1.irRcCode = s.irRcCode) ∧
    (i = 6 →
        (receivedCodeC data false s).1.eepromWrites =
          s.eepromWrites ++ [profileC s ((data >>> 16) &&& 0xFF)] ∧
        (receivedCodeC data false s).1.learnMode = false) ∧
    (i ≠ 6 →
        (receivedCodeC data false s).1.eepromWrites = s.eepromWrites ∧
        (receivedCodeC data false s).1.learnMode = true) ∧
    (∀ (d2 : Nat) (r2 : Bool), (d2 &&& 0xFFFF) ≠ s.irRcCode →
        (receivedCodeC d2 r2 s).1 = s) ∧
    (∀ (d2 : Nat) (r2 : Bool),
        (receivedCodeC d2 r2 s).1.eepromWrites ≠ s.eepromWrites →
        (d2 &&& 0xFFFF) = s.irRcCode ∧ firstUnfilledIdx s = some 6) := by
  have hstep : ∀ (d2 : Nat) (r2 : Bool), receivedCodeC d2 r2 s = learnStepC d2 s := by
    intro d2 r2
    unfold receivedCodeC
    rw [if_pos (garbageGuardC_always_true d2)]
    have h1 : ¬ (s.justBooted && !s.learnMode) = true := by simp [hlearn]
    rw [if_neg h1, if_pos hlearn]
  have hmatch : ((data &&& 0xFFFF) == s.irRcCode) = true := by simp [haddr]
  simp only [hstep]
  have hblock :
      (slotsC (learnStepC data s).1 = (slotsC s).set i ((data >>> 16) &&& 0xFF)) ∧
      ((learnStepC data s).1.irRcCode = s.irRcCode) ∧
      (i = 6 →
          (learnStepC data s).1.eepromWrites =
            s.eepromWrites ++ [profileC s ((data >>> 16) &&& 0xFF)] ∧
          (learnStepC data s).1.learnMode = false) ∧
      (i ≠ 6 →
          (learnStepC data s).1.eepromWrites = s.eepromWrites ∧
          (learnStepC data s).1.learnMode = true) := by
    simp only [learnStepC]
    rw [if_pos hmatch]
    by_cases h0 : (s.irPlayKey == 0xFFFF) = true
    · rw [if_pos h0]
      have hi : i = 0 := by
        simp [firstUnfilledIdx, h0] at hidx
        omega
      subst hi
      exact ⟨by simp [slotsC], rfl, fun h => absurd h (by decide),
        fun _ => ⟨rfl, hlearn⟩⟩
    · rw [if_neg h0]
      by_cases h1 : (s.irCenterKey == 0xFFFF) = true
      · rw [if_pos h1]
        have hi : i = 1 := by
          simp [firstUnfilledIdx, h0, h1] at hidx
          omega
        subst hi
        exact ⟨by simp [slotsC], rfl, fun h => absurd h (by decide),
          fun _ => ⟨rfl, hlearn⟩⟩
      · rw [if_neg h1]
        by_cases h2 : (s.irMenuKey == 0xFFFF) = true
        · rw [if_pos h2]
          have hi : i = 2 := by
            simp [firstUnfilledIdx, h0, h1, h2] at hidx
            omega
          subst hi
          exact ⟨by simp [slotsC], rfl, fun h => absurd h (by decide),
            fun _ => ⟨rfl, hlearn⟩⟩
        · rw [if_neg h2]
          by_cases h3 : (s.irUpKey == 0xFFFF) = true
          · rw [if_pos h3]
            have hi : i = 3 := by
              simp [firstUnfilledIdx, h0, h1, h2, h3] at hidx
              omega
            subst hi
            exact ⟨by simp [slotsC], rfl, fun h => absurd h (by decide),
              fun _ => ⟨rfl, hlearn⟩⟩
          · rw [if_neg h3]
            by_cases h4 : (s.irDownKey == 0xFFFF) = true
            · rw [if_pos h4]
              have hi : i = 4 := by
                simp [firstUnfilledIdx, h0, h1, h2, h3, h4] at hidx
                omega
              subst hi
              exact ⟨by simp [slotsC], rfl, fun h => absurd h (by decide),
                fun _ => ⟨rfl, hlearn⟩⟩
            · rw [if_neg h4]
              by_cases h5 : (s.irLeftKey == 0xFFFF) = true
              · rw [if_pos h5]
                have hi : i = 5 := by
                  simp [firstUnfilledIdx, h0, h1, h2, h3, h4, h5] at hidx
                  omega
                subst hi
                exact ⟨by simp [slotsC], rfl, fun h => absurd h (by decide),
                  fun _ => ⟨rfl, hlearn⟩⟩
              · rw [if_neg h5]
                have h6 : (s.irRightKey == 0xFFFF) = true := by
                  by_cases h6 : (s.irRightKey == 0xFFFF) = true
                  · exact h6
                  · simp [firstUnfilledIdx, h0, h1, h2, h3, h4, h5, h6] at hidx
                rw [if_pos h6]
                have hi : i = 6 := by
                  simp [firstUnfilledIdx, h0, h1, h2, h3, h4, h5, h6] at hidx
                  omega
                subst hi
                exact ⟨by simp [slotsC], rfl, fun _ => ⟨rfl, rfl⟩,
                  fun h => absurd rfl h⟩
  refine ⟨hblock.1, hblock.2.1, hblock.2.2.1, hblock.2.2.2, ?_, ?_⟩
  · intro d2 r2 hne
    simp only [learnStepC]
    rw [if_neg (by simp [hne])]
  · intro d2 r2 hch
    simp only [learnStepC] at hch
    by_cases haddr2 : ((d2 &&& 0xFFFF) == s.irRcCode) = true
    · refine ⟨by simpa using haddr2, ?_⟩
      rw [if_pos haddr2] at hch
      by_cases h0 : (s.irPlayKey == 0xFFFF) = true
      · rw [if_pos h0] at hch
        exact absurd rfl hch
      · rw [if_neg h0] at hch
        by_cases h1 : (s.irCenterKey == 0xFFFF) = true
        · rw [if_pos h1] at hch
          exact absurd rfl hch
        · rw [if_neg h1] at hch
          by_cases h2 : (s.irMenuKey == 0xFFFF) = true
          · rw [if_pos h2] at hch
            exact absurd rfl hch
          · rw [if_neg h2] at hch
            by_cases h3 : (s.irUpKey == 0xFFFF) = true
            · rw [if_pos h3] at hch
              exact absurd rfl hch
            · rw [if_neg h3] at hch
              by_cases h4 : (s.irDownKey == 0xFFFF) = true
              · rw [if_pos h4] at hch
                exact absurd rfl hch
              · rw [if_neg h4] at hch
                by_cases h5 : (s.irLeftKey == 0xFFFF) = true
                · rw [if_pos h5] at hch
                  exact absurd rfl hch
                · rw [if_neg h5] at hch
                  by_cases h6 : (s.irRightKey == 0xFFFF) = true
                  · simp [firstUnfilledIdx, h0, h1, h2, h3, h4, h5, h6]
                  · rw [if_neg h6] at hch
                    exact absurd rfl hch
    · rw [if_neg haddr2] at hch
      exact absurd rfl hch

/-- C1 witness: in a session with address 0x1234 and only the Play slot
filled, the frame 0x221234 writes command byte 0x22 into the SingleFrame
slot and persists nothing. -/
theorem learn_session_slot_fill_witness :
    slotsC (receivedCodeC 0x221234 false
      { irRcCode := 0x1234, irPlayKey := 0x11, irCenterKey := 0xFFFF,
        irMenuKey := 0xFFFF, irUpKey := 0xFFFF, irDownKey := 0xFFFF,
        irLeftKey := 0xFFFF, irRightKey := 0xFFFF,
        justBooted := false, learnMode := true, oldIntervalStep := 31,
        newIntervalStep := 31, postscaler := 2, lmMode := 1, blinkFlag := true,
        aluRemote := false, lightmeter := false, timerEnabled := false,
        eepromWrites := [] }).1
      = [0x11, 0x22, 0xFFFF, 0xFFFF, 0xFFFF, 0xFFFF, 0xFFFF] ∧
    (receivedCodeC 0x221234 false
      { irRcCode := 0x1234, irPlayKey := 0x11, irCenterKey := 0xFFFF,
        irMenuKey := 0xFFFF, irUpKey := 0xFFFF, irDownKey := 0xFFFF,
        irLeftKey := 0xFFFF, irRightKey := 0xFFFF,
        justBooted := false, learnMode := true, oldIntervalStep := 31,
        newIntervalStep := 31, postscaler := 2, lmMode := 1, blinkFlag := true,
        aluRemote := false, lightmeter := false, timerEnabled := false,
        eepromWrites := [] }).1.eepromWrites = [] := by
  have h := learn_session_slot_fill
    { irRcCode := 0x1234, irPlayKey := 0x11, irCenterKey := 0xFFFF,
      irMenuKey := 0xFFFF, irUpKey := 0xFFFF, irDownKey := 0xFFFF,
      irLeftKey := 0xFFFF, irRightKey := 0xFFFF,
      justBooted := false, learnMode := true, oldIntervalStep := 31,
      newIntervalStep := 31, postscaler := 2, lmMode := 1, blinkFlag := true,
      aluRemote := false, lightmeter := false, timerEnabled := false,
      eepromWrites := [] } 0x221234 1 rfl (by decide) (by decide)
  constructor
  · rw [h.1]
    decide
  · exact (h.2.2.2.1 (by norm_num)).1
